import Mathlib

/-!
Verification development for the G-DICE optimization engine.

The Python sources are shallowly embedded as follows:
* numpy float arrays become functions into `ℚ` (real arithmetic is exact here,
  so "up to floating-point tolerance" statements become exact equalities);
* numpy int arrays become functions into `ℕ` (or `List ℤ` where the code
  stores the sentinel value `-1` into a state array);
* `np.NINF` and values compared against it live in `WithBot ℚ` (`⊥` is `-inf`;
  note `⊥ + q = ⊥` and `¬(⊥ < ⊥)`, matching IEEE `-inf` arithmetic on these
  operations);
* Python exceptions become `Except PyError`;
* random draws (`np_random.multinomial(1, p).argmax()`, `npr.choice`) are
  abstracted as explicitly passed draw oracles: the claims under study are
  about control flow, bookkeeping and the deterministic update arithmetic,
  never about the distribution of the draws.
-/

set_option maxRecDepth 4000

/-- Python runtime exceptions that the embedded code can raise. -/
inductive PyError
  | typeError
  | zeroDivisionError
  | indexError
  | valueError
  | assertionError
  deriving DecidableEq, Repr

/-- Embedding of `FiniteStateController` (generalGDICE.py, lines 9-121).
`actionProbabilities` is the `numNodes × numActions` table (uniform
`1/numActions` at construction); `nodeTransitionProbabilities` is the
`numNodes × numNodes × numObservations` table (uniform `1/numNodes`),
indexed `(startNode, destNode, observation)` exactly as in the source.
Index values at or beyond the declared sizes are junk entries of the
function model; every theorem quantifies only over in-range indices. -/
structure FiniteStateController where
  numNodes : ℕ
  numActions : ℕ
  numObservations : ℕ
  currentNode : Option ℕ
  actionProbabilities : ℕ → ℕ → ℚ
  nodeTransitionProbabilities : ℕ → ℕ → ℕ → ℚ
  deriving Inhabited

/-- `reset` (generalGDICE.py, lines 39-42): clear the cursor and restore the
uniform tables built by `initActionNodeProbabilityTable` and
`initObservationNodeTransitionProbabilityTable`. -/
def FiniteStateController.reset (c : FiniteStateController) : FiniteStateController :=
  { c with
    currentNode := none
    actionProbabilities := fun _ _ => 1 / (c.numActions : ℚ)
    nodeTransitionProbabilities := fun _ _ _ => 1 / (c.numNodes : ℚ) }

/-- The per-sample accumulation loop of `updateProbabilitiesFromSamples`
(generalGDICE.py, lines 95-100): for each sample `s` in turn, add `w` to every
table entry `p` targeted by that sample (`pred s p` encodes the fancy-index
targeting; within one sample the targeted entries are pairwise distinct, one
per node resp. per (observation, startNode) pair, so the in-place `+=` is a
pointwise conditional add). -/
def addHits {ι : Type} (pred : ℕ → ι → Bool) (w : ℚ) (l : List ℕ)
    (tbl : ι → ℚ) : ι → ℚ :=
  l.foldl (fun t s => fun p => if pred s p then t p + w else t p) tbl

/-- Embedding of `FiniteStateController.updateProbabilitiesFromSamples`
(generalGDICE.py, lines 75-100), for the two-dimensional input produced by
`sampledActions[:, bestSampleIndices]` (column selection by an index array
always yields a 2-D `(numNodes, k)` array, and a 3-D `(numObs, numNodes, k)`
array for `sampledNodes`, so the `len(actions.shape) == 1` single-sample
branch of the source is never taken by the optimization loops; it is not
modelled).

* `if len(actions) == 0: return` — for the 2-D input, `len(actions)` is the
  size of the FIRST axis, i.e. `numNodes`, not the number of samples;
* `assert actions.shape[-1] == nodeObs.shape[-1]` — both are `k` here by
  construction, so the assert always passes and is not modelled as fallible;
* `weightPerSample = 1/actions.shape[-1]` — Python raises `ZeroDivisionError`
  when `k = 0`;
* the two decay assignments scale every entry by `(1 - learningRate)`;
* the sample loop adds `learningRate * weightPerSample` to entry
  `(i, actions[i, s])` for every node `i`, and to entry
  `(startNode, nodeObs[obs, startNode, s], obs)` for every
  `(obs, startNode)`; the action-table and transition-table additions touch
  different tables, so running the two accumulations as separate folds is
  observationally the same as the source's single interleaved loop. -/
def updateProbabilitiesFromSamples (c : FiniteStateController) (k : ℕ)
    (actions : ℕ → ℕ → ℕ) (nodeObs : ℕ → ℕ → ℕ → ℕ) (learningRate : ℚ) :
    Except PyError FiniteStateController :=
  if c.numNodes = 0 then Except.ok c
  else if k = 0 then Except.error PyError.zeroDivisionError
  else
    let w := learningRate * (1 / (k : ℚ))
    Except.ok { c with
      actionProbabilities := fun i x =>
        addHits (fun s p => actions p.1 s == p.2) w (List.range k)
          (fun p => c.actionProbabilities p.1 p.2 * (1 - learningRate)) (i, x)
      nodeTransitionProbabilities := fun i j ob =>
        addHits (fun s p => nodeObs p.2.2 p.1 s == p.2.1) w (List.range k)
          (fun p => c.nodeTransitionProbabilities p.1 p.2.1 p.2.2 * (1 - learningRate))
          (i, j, ob) }

/-- Parameter record consumed by `runGDICEOnEnvironment`.  The fields present
in `GDICEParams.__init__` of generalGDICE.py (lines 235-241) are kept with
their names; `numSimulationsPerSample` and `timeHorizon` are the two extra
fields the optimization loop reads (`params.timeHorizon`,
`params.numSimulationsPerSample`); their declaring class
(GDICE_Python/Parameters.py) is not among the sources, but the loop only
forwards them to the evaluators, which this development abstracts, so nothing
below depends on how they are produced.  Note that the constructor performs
no validation of any kind: it only stores the fields. -/
structure GDICEParams where
  numIterations : ℕ
  numSamples : ℕ
  numBestSamples : ℕ
  learningRate : ℚ
  valueThreshold : Option ℚ
  numSimulationsPerSample : ℕ
  timeHorizon : ℕ

/-- Python slice `l[-n:]` on a list, as used by
`values.argsort()[-params.numBestSamples:]` (Algorithms.py, line 59):
for `n = 0` the slice `[-0:]` is `[0:]`, the whole list; for `n ≥ 1` it is
the trailing `min n (length l)` elements. -/
def npTailSlice (l : List ℕ) (n : ℕ) : List ℕ :=
  if n = 0 then l else l.drop (l.length - n)

/-- Insert index `i` into an index list already sorted ascending by value. -/
def insertIdxByValue (values : List ℚ) (i : ℕ) : List ℕ → List ℕ
  | [] => [i]
  | j :: rest =>
    if values.getD i 0 ≤ values.getD j 0 then i :: j :: rest
    else j :: insertIdxByValue values i rest

/-- `values.argsort()`: indices of `values` sorted so the values are
ascending.  numpy's default sort is an unstable introsort, so the order of
equal values is unspecified there; this embedding is a concrete insertion
sort, which agrees with numpy whenever the values are pairwise distinct (the
only situation any theorem below relies on). -/
def npArgsort (values : List ℚ) : List ℕ :=
  (List.range values.length).foldr (insertIdxByValue values) []

/-- The data consumed by one iteration of the optimization loop that comes
out of random sampling and policy evaluation: the sampled action table
(`node, sample ↦ action`), the sampled transition table
(`obs, node, sample ↦ next node`) and the per-sample value and standard
deviation arrays returned by the evaluator.  The loop's selection, update and
convergence logic — the subject of the claims — is deterministic in these.
One caveat of this abstraction: `npr.choice` validates the probability
vector it is handed and raises `ValueError` on negative entries, an error
path the oracle does not reproduce; a run modelled through `IterData` is
therefore faithful only as long as the controller tables each iteration
samples from are valid probability vectors.  Every concrete run below
satisfies this: the C4, C5 and first C10 runs use `learningRate = 1/2` on
initially uniform tables, which stay valid distributions (the C2 theorem),
and the second C10 run performs a single iteration, whose sampling reads the
still-uniform tables before the `learningRate = 2` update corrupts them. -/
structure IterData where
  sampledActions : ℕ → ℕ → ℕ
  sampledNodes : ℕ → ℕ → ℕ → ℕ
  values : List ℚ
  stdDev : List ℚ

/-- The mutable run state of `runGDICEOnEnvironment` (Algorithms.py,
lines 26-35), with `np.NINF` rendered as `⊥ : WithBot ℚ`. -/
structure LoopState where
  controller : FiniteStateController
  bestValue : WithBot ℚ
  bestValueVariance : ℚ
  bestActionProbs : Option (ℕ → ℕ)
  bestNodeTransitionProbs : Option (ℕ → ℕ → ℕ)
  worstValueOfPreviousIteration : WithBot ℚ
  estimatedConvergenceIteration : ℕ
  bestValueAtEachIteration : List (WithBot ℚ)
  bestStdDevAtEachIteration : List ℚ
  deriving Inhabited

/-- One iteration of the `for iteration in range(params.numIterations)` body
of `runGDICEOnEnvironment` (Algorithms.py, lines 37-101), given the sampled
tables and evaluator outputs for this iteration.  Returns the successor state
and the `break` flag of line 96.  Line-by-line correspondences:

* line 38: `controllerChange = False`; line 39: `iterBestValue = np.NINF` —
  note this reset happens at the top of EVERY iteration, so the value the
  convergence check at line 89 reads is always `⊥`; the assignments
  `iterBestValue = bestValue` at lines 90 and 92 are dead (the local is reset
  before it is next read) and have no observable effect;
* lines 59-61: ascending argsort, trailing `numBestSamples` slice, gather;
* line 64: `bestValues[-1]` raises `IndexError` on an empty array
  (only possible when `values` itself is empty);
* lines 64-69: best-ever update and `controllerChange`;
* lines 72-74: quality gate against `worstValueOfPreviousIteration` — note
  that variable is read here and NOWHERE ever assigned after its `np.NINF`
  initialization, so the state field is carried through unchanged;
* lines 77-80: optional absolute `valueThreshold` gate;
* line 84: the controller update (its `ZeroDivisionError` propagates);
* lines 86-87: history bookkeeping;
* lines 89-96: the convergence check; the Python condition
  `convergenceThreshold and controllerChange` is truthy only when the float
  `convergenceThreshold` is nonzero;
* lines 99-101: the periodic `saveResults` checkpoint is an external
  side-effecting hook (GDICE_Python/Scripts.py, out of scope) with no effect
  on the run state, and is not modelled. -/
def runIteration (params : GDICEParams) (convergenceThreshold : ℚ)
    (st : LoopState) (iteration : ℕ) (d : IterData) :
    Except PyError (LoopState × Bool) :=
  let iterBestValue : WithBot ℚ := ⊥
  let bestSampleIndices := npTailSlice (npArgsort d.values) params.numBestSamples
  let bestValues := bestSampleIndices.map (fun i => d.values.getD i 0)
  let sortedStdDev := bestSampleIndices.map (fun i => d.stdDev.getD i 0)
  match bestValues.getLast? with
  | none => Except.error PyError.indexError
  | some lastVal =>
    let lastIdx := (bestSampleIndices.getLast?).getD 0
    let updBest :=
      if st.bestValue < (lastVal : WithBot ℚ) then
        (true, ((lastVal : ℚ) : WithBot ℚ), (sortedStdDev.getLast?).getD 0,
          some (fun i => d.sampledActions i lastIdx),
          some (fun ob i => d.sampledNodes ob i lastIdx))
      else
        (false, st.bestValue, st.bestValueVariance, st.bestActionProbs,
          st.bestNodeTransitionProbs)
    let controllerChange := updBest.1
    let bestValue := updBest.2.1
    let bestValueVariance := updBest.2.2.1
    let keep1 := (List.range bestValues.length).filter
      (fun j => decide (st.worstValueOfPreviousIteration ≤ ((bestValues.getD j 0 : ℚ) : WithBot ℚ)))
    let bestValues1 := keep1.map (fun j => bestValues.getD j 0)
    let bestIdx1 := keep1.map (fun j => bestSampleIndices.getD j 0)
    let afterVT :=
      match params.valueThreshold with
      | none => (bestValues1, bestIdx1)
      | some vt =>
        let keep2 := (List.range bestValues1.length).filter
          (fun j => decide (vt ≤ bestValues1.getD j 0))
        (keep2.map (fun j => bestValues1.getD j 0),
          keep2.map (fun j => bestIdx1.getD j 0))
    let bestIdx2 := afterVT.2
    (updateProbabilitiesFromSamples st.controller bestIdx2.length
        (fun i s => d.sampledActions i (bestIdx2.getD s 0))
        (fun ob i s => d.sampledNodes ob i (bestIdx2.getD s 0))
        params.learningRate).bind (fun controllerNext =>
      let hist := st.bestValueAtEachIteration ++ [bestValue]
      let histSd := st.bestStdDevAtEachIteration ++ [bestValueVariance]
      if iterBestValue < bestValue + ((convergenceThreshold : ℚ) : WithBot ℚ) then
        Except.ok
          ({ controller := controllerNext, bestValue := bestValue,
             bestValueVariance := bestValueVariance,
             bestActionProbs := updBest.2.2.2.1,
             bestNodeTransitionProbs := updBest.2.2.2.2,
             worstValueOfPreviousIteration := st.worstValueOfPreviousIteration,
             estimatedConvergenceIteration := st.estimatedConvergenceIteration,
             bestValueAtEachIteration := hist,
             bestStdDevAtEachIteration := histSd }, false)
      else
        Except.ok
          ({ controller := controllerNext, bestValue := bestValue,
             bestValueVariance := bestValueVariance,
             bestActionProbs := updBest.2.2.2.1,
             bestNodeTransitionProbs := updBest.2.2.2.2,
             worstValueOfPreviousIteration := st.worstValueOfPreviousIteration,
             estimatedConvergenceIteration := iteration,
             bestValueAtEachIteration := hist,
             bestStdDevAtEachIteration := histSd },
            decide (convergenceThreshold ≠ 0) && controllerChange))

/-- The iteration loop: run `runIteration` for each index in turn, stopping
early when an iteration raises or sets the `break` flag.  Returns the final
state together with the number of loop bodies actually executed. -/
def runIters (params : GDICEParams) (convergenceThreshold : ℚ)
    (data : ℕ → IterData) : List ℕ → LoopState → Except PyError (LoopState × ℕ)
  | [], st => Except.ok (st, 0)
  | it :: rest, st =>
    (runIteration params convergenceThreshold st it (data it)).bind (fun p =>
      if p.2 then Except.ok (p.1, 1)
      else (runIters params convergenceThreshold data rest p.1).map
        (fun q => (q.1, q.2 + 1)))

/-- Embedding of `runGDICEOnEnvironment` (Algorithms.py, lines 16-106):
the two dimension asserts of lines 18-19 (an `assert` failure is
`AssertionError`), the `controller.reset()` of line 22, the run-state
initialization of lines 26-35 and the iteration loop.  `data` supplies each
iteration's sampled tables and evaluator outputs (randomness and evaluation
abstracted, see `IterData`).  The result is the final run state plus the
number of iterations executed. -/
def runGDICEOnEnvironment (envNumActions envNumObservations : ℕ)
    (controller : FiniteStateController) (params : GDICEParams)
    (convergenceThreshold : ℚ) (data : ℕ → IterData) :
    Except PyError (LoopState × ℕ) :=
  if envNumActions ≠ controller.numActions then Except.error PyError.assertionError
  else if envNumObservations ≠ controller.numObservations then
    Except.error PyError.assertionError
  else
    runIters params convergenceThreshold data (List.range params.numIterations)
      { controller := controller.reset, bestValue := ⊥, bestValueVariance := 0,
        bestActionProbs := none, bestNodeTransitionProbs := none,
        worstValueOfPreviousIteration := ⊥, estimatedConvergenceIteration := 0,
        bestValueAtEachIteration := [], bestStdDevAtEachIteration := [] }

/-- The CPython runtime type of an object, to the granularity the evaluation
dispatch of Algorithms.py line 48 observes.  In CPython,
`multiprocessing.Pool` is a bound method of the default context object, so
`type(Pool)` evaluates to the bound-method type; a worker-pool OBJECT
(what line 13's docstring asks the caller to pass: "If not None, should be a
Pool object") is an instance of `multiprocessing.pool.Pool`, a different
type. -/
inductive PyRuntimeType
  | boundMethodType
  | poolInstanceType
  | otherType
  deriving DecidableEq

/-- A Python object abstracted to its runtime type. -/
structure PyObj where
  ty : PyRuntimeType
  deriving DecidableEq

/-- `isinstance(parallel, type(Pool))`: true exactly when `parallel` is itself
a bound method, since `type(Pool)` is the bound-method type (see
`PyRuntimeType`). -/
def isinstanceTypeOfPool (p : PyObj) : Bool :=
  p.ty = PyRuntimeType.boundMethodType

/-- The two per-iteration evaluation strategies of Algorithms.py
lines 48-52. -/
inductive EvalStrategy
  | perSampleParallel
  | vectorizedMultiEnv
  deriving DecidableEq

/-- The dispatch of Algorithms.py line 48:
`if parallel is not None and isinstance(parallel, type(Pool)):` selects the
per-sample `parallel.starmap(evaluateSample, ...)` strategy (lines 49-50),
`else` the in-process `evaluateSamplesMultiEnv` strategy (line 52). -/
def chooseEvaluationStrategy (parallel : Option PyObj) : EvalStrategy :=
  match parallel with
  | none => EvalStrategy.vectorizedMultiEnv
  | some p =>
    if isinstanceTypeOfPool p then EvalStrategy.perSampleParallel
    else EvalStrategy.vectorizedMultiEnv

/-- Python `for sim in numSimulations:` (Algorithms.py, line 121): the loop
header asks the `int` object `numSimulations` for an iterator, and CPython
raises `TypeError: 'int' object is not iterable` before any loop body runs. -/
def pyIterInt (_n : ℕ) : Except PyError (List ℕ) :=
  Except.error PyError.typeError

/-- The body of `evaluateSample`'s while loop (Algorithms.py, lines 123-132)
for one simulation: the (external, gym-provided) environment is abstracted as
a deterministic step oracle `stepFn : state → action → (state, obs, reward,
done)` recording the realized draws.  Arguments after the oracles:
remaining steps (`timeHorizon - currentTimestep`), `currentTimestep`, the
environment state, `currentNodeIndex`, and the accumulated `value`. -/
def singleRolloutAux (stepFn : ℕ → ℕ → ℕ × ℕ × ℚ × Bool) (actionT : ℕ → ℕ)
    (nodeObsT : ℕ → ℕ → ℕ) (gamma : ℚ) :
    ℕ → ℕ → ℕ → ℕ → ℚ → ℚ
  | 0, _, _, _, value => value
  | rem + 1, t, s, node, value =>
    let r := stepFn s (actionT node)
    let value2 := value + r.2.2.1 * gamma ^ t
    let node2 := nodeObsT r.2.1 node
    if r.2.2.2 then value2
    else singleRolloutAux stepFn actionT nodeObsT gamma rem (t + 1) r.1 node2 value2

/-- Embedding of `evaluateSample` (Algorithms.py, lines 118-133).
`gamma = env.discount if env.discount is not None else 1` (line 119), then
`for sim in numSimulations:` — iterating an `int`, which raises `TypeError`
unconditionally (see `pyIterInt`), so the simulation loop body (lines
122-132, modelled by `singleRolloutAux`) and the final
`return values.mean(), values.std()` are unreachable.  The model returns the
per-simulation value list of the unreachable branch (the source would then
take its mean and standard deviation). -/
def evaluateSample (discount : Option ℚ) (stepFn : ℕ → ℕ → ℕ × ℕ × ℚ × Bool)
    (resetState : ℕ) (timeHorizon numSimulations : ℕ) (actionT : ℕ → ℕ)
    (nodeObsT : ℕ → ℕ → ℕ) : Except PyError (List ℚ) :=
  let gamma := discount.getD 1
  (pyIterInt numSimulations).map (fun sims =>
    sims.map (fun _ =>
      singleRolloutAux stepFn actionT nodeObsT gamma timeHorizon 0 resetState 0 0))

/-- The data of the wrapped `gym_pomdps.POMDP` environment that
`MultiActionPOMDP` reads: the reward table `R[s, a, s2, o]`, the episodic
done table `D[s, a]`, the `episodic` flag and the optional `discount`.
(The transition table `T` and observation table `O` are only ever used as
distributions for `np_random.multinomial` draws; the realized draws are
supplied to `MultiActionPOMDP.step` as oracles instead.) -/
structure PomdpData where
  R : ℕ → ℕ → ℕ → ℕ → ℚ
  D : ℕ → ℕ → Bool
  episodic : Bool
  discount : Option ℚ
  deriving Inhabited

/-- Embedding of the `MultiActionPOMDP` wrapper state (generalGDICE.py,
lines 245-262).  `state` is the per-trajectory state array written by
`reset` (entries are nonnegative draws; the code uses `-1` as its
finished-trajectory sentinel, hence `ℤ`).  `states` is the attribute the
batched `step` writes its freshly sampled next states to (line 299 assigns
`self.states`, not `self.state`). -/
structure MultiActionPOMDP where
  env : PomdpData
  numTrajectories : ℕ
  state : List ℤ
  states : List ℤ
  deriving Inhabited

/-- Embedding of the batched path of `MultiActionPOMDP.step`
(generalGDICE.py, lines 266-301) — the path taken when `actions` is an index
array (the scalar and `(action, index)`-tuple dispatches at lines 268-273 are
not taken by the vectorized evaluator and are not modelled).  `drawT i` and
`drawO i` are the realized `multinomial(1, ·).argmax()` draws for trajectory
`i` (the source draws only for not-done trajectories, in index order;
indexing the oracles by trajectory is the same realization).

* lines 276-277: `doneIndices`/`notDoneIndices` from `self.state == -1`;
* lines 280-283: blank init, `done = np.ones(...)`;
* lines 286-290: per-trajectory draws and rewards for not-done trajectories;
* lines 291-292: when episodic, `done[notDoneIndices] = self.env.D[self.state,
  actions]` — the right-hand side indexes with the FULL state and action
  arrays, so when some trajectory is done the assignment's shapes mismatch
  and numpy raises `ValueError`; when none are done it is an elementwise
  `D[state[i], actions[i]]`;
* line 294: when not episodic, `done *= False` clears every flag;
* lines 296-298: scatter, with `-1` observation, `-1` state and `0.0` reward
  for done trajectories;
* line 299: `self.states = newStates` — `self.state` is NOT assigned. -/
def MultiActionPOMDP.step (m : MultiActionPOMDP) (actions : List ℕ)
    (drawT drawO : ℕ → ℕ) :
    Except PyError (MultiActionPOMDP × List ℤ × List ℚ × List Bool) :=
  let idx := List.range m.numTrajectories
  let doneIdx := idx.filter (fun i => decide (m.state.getD i 0 = -1))
  let newStates : List ℤ :=
    idx.map (fun i => if m.state.getD i 0 = -1 then -1 else (drawT i : ℤ))
  let obs : List ℤ :=
    idx.map (fun i => if m.state.getD i 0 = -1 then -1 else (drawO i : ℤ))
  let rewards : List ℚ :=
    idx.map (fun i =>
      if m.state.getD i 0 = -1 then 0
      else m.env.R (m.state.getD i 0).toNat (actions.getD i 0) (drawT i) (drawO i))
  if m.env.episodic then
    if doneIdx.isEmpty then
      let done := idx.map (fun i => m.env.D (m.state.getD i 0).toNat (actions.getD i 0))
      Except.ok ({ m with states := newStates }, obs, rewards, done)
    else Except.error PyError.valueError
  else
    let done := idx.map (fun _ => false)
    Except.ok ({ m with states := newStates }, obs, rewards, done)

/-- The while loop of `evaluateSamplesMultiEnv` (Algorithms.py,
lines 152-160) for one simulation, stepping the batched environment:
`while not all(isDones) and currentTimestep < timeHorizon`, with per-step
action gather `actionTransitions[currentNodes, sampleIndices]`, node update
`nodeObservationTransitions[obs, currentNodes, sampleIndices]` and reward
accumulation `values += rewards * gamma ** currentTimestep`.  The batched
environment's step is `MultiActionPOMDP.step` above (the claim's cited
batched step; the `MultiPOMDP` class named at line 145 lives in
GDICE_Python/Domains.py, which is not among the sources — its step is the
same gym-wrapper batched step, cited in the claims as
`MultiActionPOMDP.step`).  `nodeObsT` takes the raw observation as `ℤ`,
mirroring Python's integer indexing into the policy instance's transition
array.  Arguments after the oracles: remaining steps, `currentTimestep`,
wrapper state, `currentNodes`, `values`, `isDones`.  Returns the final
`values` together with the final wrapper state. -/
def multiEnvRolloutAux (actionT : ℕ → ℕ → ℕ) (nodeObsT : ℤ → ℕ → ℕ → ℕ)
    (gamma : ℚ) (drawT drawO : ℕ → ℕ → ℕ) :
    ℕ → ℕ → MultiActionPOMDP → List ℕ → List ℚ → List Bool →
    Except PyError (List ℚ × MultiActionPOMDP)
  | 0, _, m, _, values, _ => Except.ok (values, m)
  | rem + 1, t, m, nodes, values, dones =>
    if dones.all (fun b => b) then Except.ok (values, m)
    else
      (m.step ((List.range m.numTrajectories).map (fun i => actionT (nodes.getD i 0) i))
          (drawT t) (drawO t)).bind (fun res =>
        let obs := res.2.1
        let rewards := res.2.2.1
        let done := res.2.2.2
        let nodes2 := (List.range m.numTrajectories).map
          (fun i => nodeObsT (obs.getD i 0) (nodes.getD i 0) i)
        let values2 := (List.range m.numTrajectories).map
          (fun i => values.getD i 0 + rewards.getD i 0 * gamma ^ t)
        multiEnvRolloutAux actionT nodeObsT gamma drawT drawO rem (t + 1)
          res.1 nodes2 values2 done)

/-- The simulation loop of `evaluateSamplesMultiEnv` (Algorithms.py,
lines 150-161): for each simulation, `env.reset()` (the wrapper redraws
`self.state`; `resetDraw sim` is the realized draw) then one batched rollout;
collects the per-simulation `values` rows of `allSampleValues`. -/
def evalMultiSims (timeHorizon : ℕ) (actionT : ℕ → ℕ → ℕ)
    (nodeObsT : ℤ → ℕ → ℕ → ℕ) (gamma : ℚ) (resetDraw : ℕ → List ℤ)
    (drawT drawO : ℕ → ℕ → ℕ → ℕ) :
    List ℕ → MultiActionPOMDP → Except PyError (List (List ℚ))
  | [], _ => Except.ok []
  | sim :: rest, m =>
    let numSamples := m.numTrajectories
    let mr := { m with state := resetDraw sim }
    (multiEnvRolloutAux actionT nodeObsT gamma (drawT sim) (drawO sim)
        timeHorizon 0 mr (List.replicate numSamples 0)
        (List.replicate numSamples 0) (List.replicate numSamples false)).bind
      (fun p => (evalMultiSims timeHorizon actionT nodeObsT gamma resetDraw
          drawT drawO rest p.2).map (fun vs => p.1 :: vs))

/-- Embedding of `evaluateSamplesMultiEnv` (Algorithms.py, lines 144-162) up
to the final `mean(axis=0)` / `std(axis=0)`: `gamma = env.discount if
env.discount is not None else 1` (line 146), then `numSimulations` rollouts;
the result is the `allSampleValues` matrix (one row per simulation, one
column per sample), of which the source returns columnwise mean and standard
deviation. -/
def evaluateSamplesMultiEnvValues (m0 : MultiActionPOMDP)
    (timeHorizon numSimulations : ℕ) (actionT : ℕ → ℕ → ℕ)
    (nodeObsT : ℤ → ℕ → ℕ → ℕ) (resetDraw : ℕ → List ℤ)
    (drawT drawO : ℕ → ℕ → ℕ → ℕ) : Except PyError (List (List ℚ)) :=
  let gamma := m0.env.discount.getD 1
  evalMultiSims timeHorizon actionT nodeObsT gamma resetDraw drawT drawO
    (List.range numSimulations) m0

/-! Concrete instances used by the claim theorems and witnesses. -/

/-- A 2-node, 2-action, 1-observation controller with uniform tables (the
state `FiniteStateController.reset` produces for these sizes). -/
def fscUnit : FiniteStateController :=
  { numNodes := 2, numActions := 2, numObservations := 1, currentNode := none,
    actionProbabilities := fun _ _ => 1 / 2,
    nodeTransitionProbabilities := fun _ _ _ => 1 / 2 }

/-- A concrete elite action table: node 0 always takes action 0, node 1 takes
action `s` for sample `s`. -/
def actW : ℕ → ℕ → ℕ := fun i s => if i = 0 then 0 else s

/-- A concrete elite transition table: destination `(i + s) % 2`. -/
def nobW : ℕ → ℕ → ℕ → ℕ := fun _ i s => (i + s) % 2

/-- The controller produced by the update at `fscUnit`, two elite samples,
learning rate `1/5`. -/
def c1Out : FiniteStateController :=
  ((updateProbabilitiesFromSamples fscUnit 2 actW nobW (1 / 5)).toOption).getD default

/-- The controller produced by the update at `fscUnit`, two elite samples,
learning rate `1/10`. -/
def c2Out : FiniteStateController :=
  ((updateProbabilitiesFromSamples fscUnit 2 actW nobW (1 / 10)).toOption).getD default

/-- Parameters for the concrete C4 run: 2 iterations, 2 samples, 2 elites. -/
def params4 : GDICEParams :=
  { numIterations := 2, numSamples := 2, numBestSamples := 2,
    learningRate := 1 / 2, valueThreshold := none,
    numSimulationsPerSample := 1, timeHorizon := 5 }

/-- Iteration data for the concrete C4 run: iteration 0 evaluates to values
`[0, 5]` (surviving elite worst value `0`), iteration 1 to `[-3, 4]` (the
`-3` elite sits below iteration 0's worst accepted value `0`). -/
def data4 : ℕ → IterData := fun it =>
  { sampledActions := fun _ _ => 0, sampledNodes := fun _ _ _ => 0,
    values := if it = 0 then [0, 5] else [-3, 4], stdDev := [0, 0] }

/-- Parameters for the concrete C5 run: 3 iterations, 1 sample, 1 elite. -/
def params5 : GDICEParams :=
  { numIterations := 3, numSamples := 1, numBestSamples := 1,
    learningRate := 1 / 2, valueThreshold := none,
    numSimulationsPerSample := 1, timeHorizon := 5 }

/-- Iteration data for the concrete C5 run: every iteration evaluates to the
same value `[5]`, so the best value stops improving after iteration 0. -/
def data5 : ℕ → IterData := fun _ =>
  { sampledActions := fun _ _ => 0, sampledNodes := fun _ _ _ => 0,
    values := [5], stdDev := [0] }

/-- Out-of-range parameters for C10, first run: `numBestSamples = 3` exceeds
`numSamples = 1`, while `learningRate = 1/2` is kept inside `[0, 1]` so the
controller tables remain valid probability vectors throughout and every
iteration's `npr.choice` sampling succeeds in the real program too. -/
def params10 : GDICEParams :=
  { numIterations := 2, numSamples := 1, numBestSamples := 3,
    learningRate := 1 / 2, valueThreshold := none,
    numSimulationsPerSample := 1, timeHorizon := 5 }

/-- Out-of-range parameters for C10, second run: `learningRate = 2` is
outside `[0, 1]`.  `numIterations = 1`, so the single iteration samples from
the still-uniform (valid) tables and only the final, post-loop controller
carries the corrupted entries: the real program completes this run without
any error — in particular without a configuration error before sampling.
(With a second iteration the program would instead die inside that
iteration's `npr.choice`, which validates its probability vector — a
`ValueError` during sampling, likewise not the claimed configuration error
before any sampling.) -/
def params10b : GDICEParams :=
  { numIterations := 1, numSamples := 1, numBestSamples := 1,
    learningRate := 2, valueThreshold := none,
    numSimulationsPerSample := 1, timeHorizon := 5 }

/-- Iteration data for the concrete C10 runs. -/
def data10 : ℕ → IterData := fun _ =>
  { sampledActions := fun _ _ => 0, sampledNodes := fun _ _ _ => 0,
    values := [7], stdDev := [0] }

/-- An episodic environment for the C8 scenario: every transition yields
reward `1`, and `D[s, a]` is true exactly when the action is `0`. -/
def envC8 : PomdpData :=
  { R := fun _ _ _ _ => 1, D := fun _ a => a = 0, episodic := true,
    discount := none }

/-- Batched wrapper over `envC8` with two trajectories, both starting (and,
after `reset`, restarting) in state 0. -/
def mC8 : MultiActionPOMDP :=
  { env := envC8, numTrajectories := 2, state := [0, 0], states := [0, 0] }

/-- Policy instances for the C8 scenario: sample `i` always takes action `i`
(so trajectory 0 is reported done after every step and trajectory 1 never
is). -/
def actionT8 : ℕ → ℕ → ℕ := fun _ i => i

/-- A non-episodic single-trajectory wrapper for the C9 witness. -/
def mC9 : MultiActionPOMDP :=
  { env := { R := fun _ _ _ _ => 0, D := fun _ _ => false, episodic := false,
             discount := none },
    numTrajectories := 1, state := [0], states := [0] }

/-- The result of one batched step on `mC9`. -/
def c9Out : MultiActionPOMDP × List ℤ × List ℚ × List Bool :=
  ((mC9.step [0] (fun _ => 0) (fun _ => 0)).toOption).getD default

/-! Helper lemmas. -/

/-- Pointwise characterization of the per-sample accumulation fold: entry `p`
ends up with `w` added once for every sample in `l` that targets it. -/
theorem addHits_apply {ι : Type} (pred : ℕ → ι → Bool) (w : ℚ) (l : List ℕ)
    (tbl : ι → ℚ) (p : ι) :
    addHits pred w l tbl p
      = tbl p + w * ((l.countP (fun s => pred s p) : ℕ) : ℚ) := by
  induction l generalizing tbl with
  | nil => simp [addHits]
  | cons s rest ih =>
    show addHits pred w rest (fun q => if pred s q then tbl q + w else tbl q) p
        = tbl p + w * (((s :: rest).countP (fun t => pred t p) : ℕ) : ℚ)
    rw [ih, List.countP_cons]
    by_cases hsp : pred s p = true
    · simp only [hsp, if_pos]
      push_cast
      ring
    · simp [hsp]

/-- Successful runs of the update: either the degenerate zero-node case
returns the controller unchanged, or the elite set is non-empty and every
entry of the two tables satisfies the decay-plus-counted-mass formula. -/
theorem updateProbabilitiesFromSamples_ok (c : FiniteStateController) (k : ℕ)
    (actions : ℕ → ℕ → ℕ) (nodeObs : ℕ → ℕ → ℕ → ℕ) (lr : ℚ)
    (c2 : FiniteStateController)
    (h : updateProbabilitiesFromSamples c k actions nodeObs lr = Except.ok c2) :
    (c.numNodes = 0 ∧ c2 = c) ∨
    (k ≠ 0 ∧
      (∀ i x, c2.actionProbabilities i x =
        c.actionProbabilities i x * (1 - lr)
          + lr * (1 / (k : ℚ))
            * (((List.range k).countP (fun s => actions i s == x) : ℕ) : ℚ)) ∧
      (∀ i j ob, c2.nodeTransitionProbabilities i j ob =
        c.nodeTransitionProbabilities i j ob * (1 - lr)
          + lr * (1 / (k : ℚ))
            * (((List.range k).countP (fun s => nodeObs ob i s == j) : ℕ) : ℚ)) ∧
      c2.numNodes = c.numNodes ∧ c2.numActions = c.numActions ∧
      c2.numObservations = c.numObservations) := by
  unfold updateProbabilitiesFromSamples at h
  by_cases hn : c.numNodes = 0
  · rw [if_pos hn] at h
    exact Or.inl ⟨hn, (Except.ok.injEq _ _ ▸ h).symm⟩
  · rw [if_neg hn] at h
    by_cases hk : k = 0
    · rw [if_pos hk] at h
      exact absurd h (by simp)
    · rw [if_neg hk] at h
      have h2 := (Except.ok.injEq _ _ ▸ h)
      refine Or.inr ⟨hk, ?_, ?_, ?_, ?_, ?_⟩ <;> rw [← h2]
      · intro i x
        rw [show (({ c with
            actionProbabilities := fun i x =>
              addHits (fun s p => actions p.1 s == p.2) (lr * (1 / (k : ℚ)))
                (List.range k)
                (fun p => c.actionProbabilities p.1 p.2 * (1 - lr)) (i, x)
            nodeTransitionProbabilities := fun i j ob =>
              addHits (fun s p => nodeObs p.2.2 p.1 s == p.2.1)
                (lr * (1 / (k : ℚ))) (List.range k)
                (fun p => c.nodeTransitionProbabilities p.1 p.2.1 p.2.2 * (1 - lr))
                (i, j, ob) } : FiniteStateController).actionProbabilities i x)
          = addHits (fun s p => actions p.1 s == p.2) (lr * (1 / (k : ℚ)))
              (List.range k)
              (fun p => c.actionProbabilities p.1 p.2 * (1 - lr)) (i, x) from rfl]
        rw [addHits_apply]
      · intro i j ob
        rw [show (({ c with
            actionProbabilities := fun i x =>
              addHits (fun s p => actions p.1 s == p.2) (lr * (1 / (k : ℚ)))
                (List.range k)
                (fun p => c.actionProbabilities p.1 p.2 * (1 - lr)) (i, x)
            nodeTransitionProbabilities := fun i j ob =>
              addHits (fun s p => nodeObs p.2.2 p.1 s == p.2.1)
                (lr * (1 / (k : ℚ))) (List.range k)
                (fun p => c.nodeTransitionProbabilities p.1 p.2.1 p.2.2 * (1 - lr))
                (i, j, ob) } : FiniteStateController).nodeTransitionProbabilities i j ob)
          = addHits (fun s p => nodeObs p.2.2 p.1 s == p.2.1) (lr * (1 / (k : ℚ)))
              (List.range k)
              (fun p => c.nodeTransitionProbabilities p.1 p.2.1 p.2.2 * (1 - lr))
              (i, j, ob) from rfl]
        rw [addHits_apply]

/-- Counting members of `List.range k` by the value of `f`, as an indicator
sum. -/
theorem countP_range_eq_sum (f : ℕ → ℕ) (k x : ℕ) :
    (((List.range k).countP (fun s => f s == x) : ℕ) : ℚ)
      = ∑ s in Finset.range k, (if f s = x then (1 : ℚ) else 0) := by
  induction k with
  | zero => simp
  | succ n ih =>
    rw [Finset.sum_range_succ, List.range_succ, List.countP_append, ← ih]
    by_cases hfx : f n = x
    · simp [List.countP_cons, hfx]
    · simp [List.countP_cons, hfx]

/-- When `f` maps `[0, k)` into `[0, bound)`, each sample is counted exactly
once across the `bound` buckets. -/
theorem sum_countP_range (f : ℕ → ℕ) (k bound : ℕ) (hf : ∀ s < k, f s < bound) :
    ∑ x in Finset.range bound,
        (((List.range k).countP (fun s => f s == x) : ℕ) : ℚ) = (k : ℚ) := by
  have h1 : ∀ x, (((List.range k).countP (fun s => f s == x) : ℕ) : ℚ)
      = ∑ s in Finset.range k, (if f s = x then (1 : ℚ) else 0) :=
    fun x => countP_range_eq_sum f k x
  calc ∑ x in Finset.range bound,
          (((List.range k).countP (fun s => f s == x) : ℕ) : ℚ)
      = ∑ x in Finset.range bound, ∑ s in Finset.range k,
          (if f s = x then (1 : ℚ) else 0) := Finset.sum_congr rfl (fun x _ => h1 x)
    _ = ∑ s in Finset.range k, ∑ x in Finset.range bound,
          (if f s = x then (1 : ℚ) else 0) := Finset.sum_comm
    _ = ∑ s in Finset.range k, 1 := by
          refine Finset.sum_congr rfl (fun s hs => ?_)
          rw [Finset.sum_ite_eq (Finset.range bound) (f s) (fun _ => (1 : ℚ))]
          rw [if_pos (Finset.mem_range.mpr (hf s (Finset.mem_range.mp hs)))]
    _ = (k : ℚ) := by simp

/-! Claim theorems. -/

/-- C1: for every controller distribution and every non-empty elite set of
`k` samples, `updateProbabilitiesFromSamples` first multiplies both
probability tables by `(1 - learningRate)` and then, for each of the `k`
elite samples, adds `learningRate / k` to the entry of the action taken at
every node and to the entry of the destination node taken for every
`(observation, startNode)` pair — so each in-range entry ends at its decayed
value plus `learningRate / k` times the number of elite samples that took
it. -/
theorem claim1_update_blend (c : FiniteStateController) (k : ℕ)
    (actions : ℕ → ℕ → ℕ) (nodeObs : ℕ → ℕ → ℕ → ℕ) (lr : ℚ)
    (c2 : FiniteStateController) (hk : 0 < k)
    (h : updateProbabilitiesFromSamples c k actions nodeObs lr = Except.ok c2) :
    (∀ i < c.numNodes, ∀ x < c.numActions,
      c2.actionProbabilities i x =
        c.actionProbabilities i x * (1 - lr)
          + lr * (1 / (k : ℚ))
            * (((List.range k).countP (fun s => actions i s == x) : ℕ) : ℚ)) ∧
    (∀ i < c.numNodes, ∀ j < c.numNodes, ∀ ob < c.numObservations,
      c2.nodeTransitionProbabilities i j ob =
        c.nodeTransitionProbabilities i j ob * (1 - lr)
          + lr * (1 / (k : ℚ))
            * (((List.range k).countP (fun s => nodeObs ob i s == j) : ℕ) : ℚ)) := by
  rcases updateProbabilitiesFromSamples_ok c k actions nodeObs lr c2 h with
    ⟨hn, _⟩ | ⟨_, hA, hN, _⟩
  · constructor
    · intro i hi
      exact absurd hi (by omega)
    · intro i hi
      exact absurd hi (by omega)
  · exact ⟨fun i _ x _ => hA i x, fun i _ j _ ob _ => hN i j ob⟩

/-- Witness for C1 at `fscUnit`, two elite samples and learning rate `1/5`. -/
theorem claim1_update_blend_witness :
    0 < 2 ∧
    updateProbabilitiesFromSamples fscUnit 2 actW nobW (1 / 5) = Except.ok c1Out ∧
    c1Out.actionProbabilities 0 0 =
      fscUnit.actionProbabilities 0 0 * (1 - 1 / 5)
        + (1 / 5) * (1 / (2 : ℚ))
          * (((List.range 2).countP (fun s => actW 0 s == 0) : ℕ) : ℚ) ∧
    c1Out.nodeTransitionProbabilities 1 0 0 =
      fscUnit.nodeTransitionProbabilities 1 0 0 * (1 - 1 / 5)
        + (1 / 5) * (1 / (2 : ℚ))
          * (((List.range 2).countP (fun s => nobW 0 1 s == 0) : ℕ) : ℚ) :=
  ⟨by decide, rfl,
    (claim1_update_blend fscUnit 2 actW nobW (1 / 5) c1Out (by decide) rfl).1
      0 (by decide) 0 (by decide),
    (claim1_update_blend fscUnit 2 actW nobW (1 / 5) c1Out (by decide) rfl).2
      1 (by decide) 0 (by decide) 0 (by decide)⟩

/-- C2: for every controller whose action rows and transition slices are
probability distributions (sum 1, entries nonnegative) and every
`learningRate` in `[0, 1]`, after a successful `updateProbabilitiesFromSamples`
with a non-empty elite set every action row still sums to 1 and every
`(startNode, observation)` transition slice still sums to 1, with all entries
nonnegative (exactly, since the model computes in `ℚ`). -/
theorem claim2_update_preserves_distribution (c : FiniteStateController)
    (k : ℕ) (actions : ℕ → ℕ → ℕ) (nodeObs : ℕ → ℕ → ℕ → ℕ) (lr : ℚ)
    (c2 : FiniteStateController) (hk : 0 < k) (hlr0 : 0 ≤ lr) (hlr1 : lr ≤ 1)
    (hA1 : ∀ i < c.numNodes,
      ∑ x in Finset.range c.numActions, c.actionProbabilities i x = 1)
    (hA0 : ∀ i < c.numNodes, ∀ x < c.numActions, 0 ≤ c.actionProbabilities i x)
    (hN1 : ∀ i < c.numNodes, ∀ ob < c.numObservations,
      ∑ j in Finset.range c.numNodes, c.nodeTransitionProbabilities i j ob = 1)
    (hN0 : ∀ i < c.numNodes, ∀ j < c.numNodes, ∀ ob < c.numObservations,
      0 ≤ c.nodeTransitionProbabilities i j ob)
    (hact : ∀ i < c.numNodes, ∀ s < k, actions i s < c.numActions)
    (hobs : ∀ ob < c.numObservations, ∀ i < c.numNodes, ∀ s < k,
      nodeObs ob i s < c.numNodes)
    (h : updateProbabilitiesFromSamples c k actions nodeObs lr = Except.ok c2) :
    (∀ i < c.numNodes,
      ∑ x in Finset.range c.numActions, c2.actionProbabilities i x = 1) ∧
    (∀ i < c.numNodes, ∀ x < c.numActions, 0 ≤ c2.actionProbabilities i x) ∧
    (∀ i < c.numNodes, ∀ ob < c.numObservations,
      ∑ j in Finset.range c.numNodes, c2.nodeTransitionProbabilities i j ob = 1) ∧
    (∀ i < c.numNodes, ∀ j < c.numNodes, ∀ ob < c.numObservations,
      0 ≤ c2.nodeTransitionProbabilities i j ob) := by
  have hkQ : ((k : ℚ)) ≠ 0 := Nat.cast_ne_zero.mpr hk.ne'
  rcases updateProbabilitiesFromSamples_ok c k actions nodeObs lr c2 h with
    ⟨hn, rfl⟩ | ⟨_, hA, hN, _⟩
  · exact ⟨hA1, hA0, hN1, hN0⟩
  · refine ⟨?_, ?_, ?_, ?_⟩
    · intro i hi
      calc ∑ x in Finset.range c.numActions, c2.actionProbabilities i x
          = ∑ x in Finset.range c.numActions,
              (c.actionProbabilities i x * (1 - lr)
                + lr * (1 / (k : ℚ))
                  * (((List.range k).countP (fun s => actions i s == x) : ℕ) : ℚ)) :=
            Finset.sum_congr rfl (fun x _ => hA i x)
        _ = (∑ x in Finset.range c.numActions, c.actionProbabilities i x) * (1 - lr)
              + lr * (1 / (k : ℚ))
                * ∑ x in Finset.range c.numActions,
                    (((List.range k).countP (fun s => actions i s == x) : ℕ) : ℚ) := by
            rw [Finset.sum_add_distrib, ← Finset.sum_mul, ← Finset.mul_sum]
        _ = 1 * (1 - lr) + lr * (1 / (k : ℚ)) * (k : ℚ) := by
            rw [hA1 i hi,
              sum_countP_range (fun s => actions i s) k c.numActions
                (fun s hs => hact i hi s hs)]
        _ = 1 := by field_simp
    · intro i _ x _
      rw [hA i x]
      have hcnt : (0 : ℚ) ≤
          (((List.range k).countP (fun s => actions i s == x) : ℕ) : ℚ) :=
        Nat.cast_nonneg _
      have h1k : (0 : ℚ) ≤ 1 / (k : ℚ) := by positivity
      have hp : 0 ≤ c.actionProbabilities i x := hA0 i ‹_› x ‹_›
      have h1 : 0 ≤ c.actionProbabilities i x * (1 - lr) :=
        mul_nonneg hp (by linarith)
      have h2 : 0 ≤ lr * (1 / (k : ℚ))
          * (((List.range k).countP (fun s => actions i s == x) : ℕ) : ℚ) :=
        mul_nonneg (mul_nonneg hlr0 h1k) hcnt
      linarith
    · intro i hi ob hob
      calc ∑ j in Finset.range c.numNodes, c2.nodeTransitionProbabilities i j ob
          = ∑ j in Finset.range c.numNodes,
              (c.nodeTransitionProbabilities i j ob * (1 - lr)
                + lr * (1 / (k : ℚ))
                  * (((List.range k).countP (fun s => nodeObs ob i s == j) : ℕ) : ℚ)) :=
            Finset.sum_congr rfl (fun j _ => hN i j ob)
        _ = (∑ j in Finset.range c.numNodes, c.nodeTransitionProbabilities i j ob)
              * (1 - lr)
              + lr * (1 / (k : ℚ))
                * ∑ j in Finset.range c.numNodes,
                    (((List.range k).countP (fun s => nodeObs ob i s == j) : ℕ) : ℚ) := by
            rw [Finset.sum_add_distrib, ← Finset.sum_mul, ← Finset.mul_sum]
        _ = 1 * (1 - lr) + lr * (1 / (k : ℚ)) * (k : ℚ) := by
            rw [hN1 i hi ob hob,
              sum_countP_range (fun s => nodeObs ob i s) k c.numNodes
                (fun s hs => hobs ob hob i hi s hs)]
        _ = 1 := by field_simp
    · intro i _ j _ ob _
      rw [hN i j ob]
      have hcnt : (0 : ℚ) ≤
          (((List.range k).countP (fun s => nodeObs ob i s == j) : ℕ) : ℚ) :=
        Nat.cast_nonneg _
      have h1k : (0 : ℚ) ≤ 1 / (k : ℚ) := by positivity
      have hp : 0 ≤ c.nodeTransitionProbabilities i j ob := hN0 i ‹_› j ‹_› ob ‹_›
      have h1 : 0 ≤ c.nodeTransitionProbabilities i j ob * (1 - lr) :=
        mul_nonneg hp (by linarith)
      have h2 : 0 ≤ lr * (1 / (k : ℚ))
          * (((List.range k).countP (fun s => nodeObs ob i s == j) : ℕ) : ℚ) :=
        mul_nonneg (mul_nonneg hlr0 h1k) hcnt
      linarith

/-- Witness for C2 at `fscUnit`, two elite samples and learning rate
`1/10`. -/
theorem claim2_update_preserves_distribution_witness :
    0 < 2 ∧ (0 : ℚ) ≤ 1 / 10 ∧ (1 / 10 : ℚ) ≤ 1 ∧
    (∀ i < fscUnit.numNodes,
      ∑ x in Finset.range fscUnit.numActions, fscUnit.actionProbabilities i x = 1) ∧
    (∀ i < fscUnit.numNodes, ∀ s < 2, actW i s < fscUnit.numActions) ∧
    updateProbabilitiesFromSamples fscUnit 2 actW nobW (1 / 10) = Except.ok c2Out ∧
    (∑ x in Finset.range fscUnit.numActions, c2Out.actionProbabilities 0 x = 1) ∧
    (0 ≤ c2Out.actionProbabilities 1 0) ∧
    (∑ j in Finset.range fscUnit.numNodes, c2Out.nodeTransitionProbabilities 0 j 0 = 1) ∧
    (0 ≤ c2Out.nodeTransitionProbabilities 1 0 0) := by
  have hA1 : ∀ i < fscUnit.numNodes,
      ∑ x in Finset.range fscUnit.numActions, fscUnit.actionProbabilities i x = 1 := by
    with_unfolding_all decide
  have hA0 : ∀ i < fscUnit.numNodes, ∀ x < fscUnit.numActions,
      0 ≤ fscUnit.actionProbabilities i x := by with_unfolding_all decide
  have hN1 : ∀ i < fscUnit.numNodes, ∀ ob < fscUnit.numObservations,
      ∑ j in Finset.range fscUnit.numNodes,
        fscUnit.nodeTransitionProbabilities i j ob = 1 := by with_unfolding_all decide
  have hN0 : ∀ i < fscUnit.numNodes, ∀ j < fscUnit.numNodes,
      ∀ ob < fscUnit.numObservations,
      0 ≤ fscUnit.nodeTransitionProbabilities i j ob := by with_unfolding_all decide
  have hact : ∀ i < fscUnit.numNodes, ∀ s < 2, actW i s < fscUnit.numActions := by
    decide
  have hobs : ∀ ob < fscUnit.numObservations, ∀ i < fscUnit.numNodes, ∀ s < 2,
      nobW ob i s < fscUnit.numNodes := by decide
  have main := claim2_update_preserves_distribution fscUnit 2 actW nobW (1 / 10)
    c2Out (by decide) (by norm_num) (by norm_num) hA1 hA0 hN1 hN0 hact hobs rfl
  exact ⟨by decide, by norm_num, by norm_num, hA1, hact, rfl,
    main.1 0 (by decide), main.2.1 1 (by decide) 0 (by decide),
    main.2.2.1 0 (by decide) 0 (by decide),
    main.2.2.2 1 (by decide) 0 (by decide) 0 (by decide)⟩

/-- C3 (refuted — code bug): calling `updateProbabilitiesFromSamples` with an
empty elite set on a real controller (here `fscUnit`, which has 2 nodes) is
NOT a no-op: the `len(actions) == 0` guard tests the node axis of the
`(numNodes, 0)`-shaped input, so the call falls through to
`weightPerSample = 1/actions.shape[-1]` and raises `ZeroDivisionError`
instead of returning normally with the tables unchanged. -/
theorem claim3_empty_elites_zeroDivisionError :
    updateProbabilitiesFromSamples fscUnit 0 actW nobW (1 / 10)
      = Except.error PyError.zeroDivisionError := rfl

/-- C4 (refuted — code bug): the worst-accepted-value floor is NOT recomputed
from the surviving elite set.  In this concrete 2-iteration run (2 samples,
2 elites, no `valueThreshold`), iteration 0's surviving elites have values
`{0, 5}`, so per the claim the floor carried into iteration 1 — and hence the
floor left in the final state — would be `0` and would discard iteration 1's
`-3` elite.  The code never assigns `worstValueOfPreviousIteration` after its
`np.NINF` initialization, so the floor is still `⊥` after the full run (and
the `-3` elite was kept). -/
theorem claim4_floor_never_recomputed :
    (runGDICEOnEnvironment 2 1 fscUnit params4 0 data4).map
        (fun p => (p.1.worstValueOfPreviousIteration, p.2))
      = Except.ok ((⊥ : WithBot ℚ), 2) := by
  with_unfolding_all rfl

/-- C5 (refuted — code bug): with `convergenceThreshold = 0` a run whose best
value stops improving is NOT terminated early and the convergence marker is
NOT set.  In this concrete 3-iteration run every iteration evaluates to the
same value `5`, so the best value stops improving after iteration 0; per the
claim the loop would record the convergence iteration and stop early, but the
code executes all 3 iterations and leaves `estimatedConvergenceIteration` at
its initial value `0`: `iterBestValue` is reset to `np.NINF` at the top of
every iteration, so the line-89 test `iterBestValue < bestValue +
convergenceThreshold` always passes once `bestValue` is finite, and even on
the unreachable other branch `if convergenceThreshold and controllerChange`
is falsy for threshold `0`. -/
theorem claim5_no_early_termination :
    (runGDICEOnEnvironment 2 1 fscUnit params5 0 data5).map
        (fun p => (p.2, p.1.estimatedConvergenceIteration))
      = Except.ok (3, 0) := by
  with_unfolding_all rfl

/-- C6 (refuted — code bug): supplying a worker Pool OBJECT as the `parallel`
argument does NOT select the per-sample process-parallel strategy.  Because
`multiprocessing.Pool` is a bound method, `type(Pool)` is the bound-method
type, so `isinstance(parallel, type(Pool))` is false for a Pool instance and
the dispatch of Algorithms.py line 48 falls through to the in-process
vectorized strategy. -/
theorem claim6_pool_object_dispatches_vectorized :
    chooseEvaluationStrategy (some { ty := PyRuntimeType.poolInstanceType })
      = EvalStrategy.vectorizedMultiEnv := rfl

/-- C7 (refuted — code bug): `evaluateSample` never performs its
`numSimulations` repeats and never returns a mean and standard deviation:
the loop header `for sim in numSimulations:` iterates the `int`
`numSimulations` itself, so every call raises `TypeError` before any
simulation runs, for every environment, horizon, simulation count and policy
instance. -/
theorem claim7_evaluateSample_typeError (discount : Option ℚ)
    (stepFn : ℕ → ℕ → ℕ × ℕ × ℚ × Bool) (resetState : ℕ)
    (timeHorizon numSimulations : ℕ) (actionT : ℕ → ℕ)
    (nodeObsT : ℕ → ℕ → ℕ) :
    evaluateSample discount stepFn resetState timeHorizon numSimulations
        actionT nodeObsT
      = Except.error PyError.typeError := rfl

/-- C8 (refuted — code bug): a trajectory reported done does NOT stop
contributing reward, because `step` stores the sampled next states into
`self.states` while done-detection reads `self.state`, which never changes.
Concrete batched rollout on `mC8` (2 trajectories, episodic, reward 1 per
step, `D[s, a] ⟺ a = 0`, policy: sample `i` takes action `i`, horizon 2,
1 simulation): trajectory 0 is reported done after the first step, so per the
claim it is excluded from the second step and its return stays 1; the code
includes it again and returns value 2 for it (`[[2, 2]]`). -/
theorem claim8_done_trajectory_keeps_accruing_reward :
    evaluateSamplesMultiEnvValues mC8 2 1 actionT8 (fun _ _ _ => 0)
        (fun _ => [0, 0]) (fun _ _ _ => 0) (fun _ _ _ => 0)
      = Except.ok [[2, 2]] := by
  with_unfolding_all rfl

/-- C9: for every call of the batched `MultiActionPOMDP.step` that returns
normally, the wrapper's `state` attribute is unchanged — the freshly sampled
next states are stored under the different attribute `states` (line 299
assigns `self.states`), so every field of the wrapper except `states` is
exactly as before the call, and every subsequent batched step samples from
the same per-trajectory states. -/
theorem claim9_step_leaves_state_unchanged (m : MultiActionPOMDP)
    (actions : List ℕ) (drawT drawO : ℕ → ℕ)
    (out : MultiActionPOMDP × List ℤ × List ℚ × List Bool)
    (h : m.step actions drawT drawO = Except.ok out) :
    out.1 = { m with states := out.1.states } := by
  unfold MultiActionPOMDP.step at h
  by_cases he : m.env.episodic
  · rw [if_pos he] at h
    by_cases hd : ((List.range m.numTrajectories).filter
        (fun i => decide (m.state.getD i 0 = -1))).isEmpty
    · rw [if_pos hd] at h
      have h2 := (Except.ok.injEq _ _ ▸ h)
      rw [← h2]
    · rw [if_neg hd] at h
      exact absurd h (by simp)
  · rw [if_neg he] at h
    have h2 := (Except.ok.injEq _ _ ▸ h)
    rw [← h2]

/-- Witness for C9: one batched step on the concrete wrapper `mC9`. -/
theorem claim9_step_leaves_state_unchanged_witness :
    mC9.step [0] (fun _ => 0) (fun _ => 0) = Except.ok c9Out ∧
    c9Out.1 = { mC9 with states := c9Out.1.states } :=
  ⟨rfl, claim9_step_leaves_state_unchanged mC9 [0] (fun _ => 0) (fun _ => 0)
    c9Out rfl⟩

/-- C10 counterexample: parameters are NOT validated.  First run: with
`numBestSamples = 3 > numSamples = 1` (and an in-range `learningRate = 1/2`,
so the tables every iteration samples from stay valid probability vectors),
on a controller matching the environment dimensions, no configuration error
is raised: the loop starts, samples, and executes both of its iterations
normally.  Second run: with `learningRate = 2` (outside `[0, 1]`) and a
single iteration — which samples from the still-uniform tables before the
update corrupts them — the program likewise raises no error at all, and in
particular no configuration error before any sampling, contradicting the
claim for both named parameter ranges. -/
theorem claim10_no_range_validation_counterexample :
    (runGDICEOnEnvironment 2 1 fscUnit params10 0 data10).map (fun p => p.2)
      = Except.ok 2 ∧
    (runGDICEOnEnvironment 2 1 fscUnit params10b 0 data10).map (fun p => p.2)
      = Except.ok 1 := by
  constructor
  · with_unfolding_all rfl
  · with_unfolding_all rfl

/-- C10 amended: the only pre-loop validation in `runGDICEOnEnvironment` is
the pair of controller/environment dimension asserts — an action-count or
observation-count mismatch raises `AssertionError` before any sampling or
iteration; `GDICEParams` fields receive no positivity/range validation at
all (see the counterexample). -/
theorem claim10_dimension_asserts_only (envNumActions envNumObservations : ℕ)
    (c : FiniteStateController) (params : GDICEParams)
    (convergenceThreshold : ℚ) (data : ℕ → IterData)
    (h : envNumActions ≠ c.numActions ∨ envNumObservations ≠ c.numObservations) :
    runGDICEOnEnvironment envNumActions envNumObservations c params
        convergenceThreshold data
      = Except.error PyError.assertionError := by
  rcases h with h | h
  · unfold runGDICEOnEnvironment
    rw [if_pos h]
  · unfold runGDICEOnEnvironment
    by_cases h2 : envNumActions ≠ c.numActions
    · rw [if_pos h2]
    · rw [if_neg h2, if_pos h]

/-- Witness for the amended C10 at a concrete mismatch: the environment has 3
actions while `fscUnit` has 2. -/
theorem claim10_dimension_asserts_only_witness :
    ((3 : ℕ) ≠ fscUnit.numActions ∨ (1 : ℕ) ≠ fscUnit.numObservations) ∧
    runGDICEOnEnvironment 3 1 fscUnit params10 0 data10
      = Except.error PyError.assertionError :=
  ⟨Or.inl (by decide),
    claim10_dimension_asserts_only 3 1 fscUnit params10 0 data10
      (Or.inl (by decide))⟩
